import Mathlib

/-!
Shallow embedding of the request-execution core of the revmax-hub/nodejs-agent-sdk
repository: the error taxonomy and classifier of src/utils/errors.ts, the retry
and backoff logic of src/utils/api.ts, the telemetry recorder of
src/utils/telemetry.ts, the API-key authentication of src/auth/apiKey.ts and the
connect handshake of src/client.ts. Machine numbers are modelled as Nat, maps as
association lists, and the asynchronous retry loop as a pure recursion indexed by
the physical-attempt ordinal, with the random sampling draw and the clock passed
in as explicit arguments.
-/

/-- JavaScript string fallback `a || b` for an optional string field: the default
is used when the field is absent or is the empty string (both falsy). -/
def strOr (s : Option String) (d : String) : String :=
  match s with
  | some m => if m = "" then d else m
  | none => d

/-- The response part of a failed HTTP request, `error.response` as consumed by
`isRetryable`, the retry loop of `ApiClient.request` and `parseApiError`.
`retryAfter` is the integer value of the `retry-after` response header when that
header is present; the source obtains it by `parseInt` on the header string.
`dataMessage`, `dataErrors` and `dataCode` model the `message`, `errors` and
`code` fields of `error.response.data` (`dataErrors` records only whether a
structured `errors` payload is present, which is all the classifier inspects). -/
structure HttpResponse where
  status : Nat
  retryAfter : Option Nat
  dataMessage : Option String
  dataErrors : Bool
  dataCode : Option String
deriving Repr, DecidableEq

/-- A failed transport attempt, the `error` value of an axios rejection: a message
and an optional response. `response = none` is a network-level failure where no
response was received at all. -/
structure HttpError where
  message : String
  response : Option HttpResponse
deriving Repr, DecidableEq

/-- The error taxonomy of src/utils/errors.ts. `base` is the plain `RevMaxError`
class. Each constructor carries the fields the corresponding class stores that
the verified claims inspect: `RevMaxApiError` stores a status code and an
optional error code, `RevMaxRateLimitError` passes the literal 429 to its
`RevMaxApiError` superclass and stores the retry-after hint, and
`RevMaxAuthenticationError`, `RevMaxValidationError` and
`RevMaxInitializationError` extend the base class and store no status code. -/
inductive RevMaxError where
  | base (message : String)
  | apiError (message : String) (statusCode : Nat) (errorCode : Option String)
  | authenticationError (message : String)
  | rateLimitError (message : String) (retryAfter : Nat)
  | validationError (message : String)
  | notFoundError (message : String) (statusCode : Nat)
  | initializationError (message : String)
deriving Repr, DecidableEq

/-- The `message` property every error class inherits from `Error`. -/
def RevMaxError.message : RevMaxError → String
  | .base m => m
  | .apiError m _ _ => m
  | .authenticationError m => m
  | .rateLimitError m _ => m
  | .validationError m => m
  | .notFoundError m _ => m
  | .initializationError m => m

/-- The `statusCode` property of an error object, `undefined` (`none`) for the
classes that do not define it: only `RevMaxApiError` and its subclasses
`RevMaxRateLimitError` (always 429, passed to `super`) and `RevMaxNotFoundError`
carry a status code; in particular `RevMaxAuthenticationError` extends the base
`RevMaxError` class and has no `statusCode` property. -/
def RevMaxError.statusCode : RevMaxError → Option Nat
  | .apiError _ s _ => some s
  | .rateLimitError _ _ => some 429
  | .notFoundError _ s => some s
  | _ => none

/-- Embedding of `parseApiError` (src/utils/errors.ts lines 149-198): 401 maps to
`RevMaxAuthenticationError`, 429 to `RevMaxRateLimitError` with the parsed
retry-after header defaulting to 0, 422 with a structured errors payload to
`RevMaxValidationError`, any other truthy status code to a generic
`RevMaxApiError` carrying that status, and the absence of a status code (network
failure, or the edge case status 0 which is falsy in JavaScript) to the plain
base error. -/
def parseApiError (error : HttpError) : RevMaxError :=
  let message := strOr (some error.message) "Unknown error"
  match error.response with
  | none => .base message
  | some r =>
    if r.status = 401 then
      .authenticationError (strOr r.dataMessage "Authentication failed")
    else if r.status = 429 then
      .rateLimitError (strOr r.dataMessage "Rate limit exceeded") (r.retryAfter.getD 0)
    else if r.status = 422 && r.dataErrors then
      .validationError (strOr r.dataMessage "Validation failed")
    else if r.status ≠ 0 then
      .apiError (strOr r.dataMessage message) r.status r.dataCode
    else
      .base message

/-- Embedding of `isRetryable` (src/utils/api.ts lines 51-61): with a response,
retry exactly on 429 or a 5xx status; without a response (network error), retry. -/
def isRetryable (error : HttpError) : Bool :=
  match error.response with
  | some r => r.status == 429 || (500 ≤ r.status && r.status < 600)
  | none => true

/-- Embedding of `calculateBackoff` (src/utils/api.ts lines 33-35). -/
def calculateBackoff (retryCount : Nat) (initialDelay : Nat) : Nat :=
  initialDelay * 2 ^ retryCount

/-- The wait computed inline in `ApiClient.request` (src/utils/api.ts lines
201-211) before a retry: the `retry-after` header value converted to
milliseconds whenever that header is present on the response, regardless of the
status code, and the exponential backoff otherwise. -/
def retryWait (retry : Nat) (retryDelay : Nat) (error : HttpError) : Nat :=
  let backoff := calculateBackoff retry retryDelay
  match error.response with
  | some r =>
    match r.retryAfter with
    | some secs => secs * 1000
    | none => backoff
  | none => backoff

/-- Modelled from the spec sentence of claim C1, for comparison with `retryWait`:
the wait equals the server-provided retry-after value in milliseconds if that
header is present and the response status was 429, and otherwise the exponential
backoff. -/
def specClaimedWait (retry : Nat) (retryDelay : Nat) (error : HttpError) : Nat :=
  match error.response with
  | some r =>
    match r.retryAfter with
    | some secs =>
      if r.status = 429 then secs * 1000 else calculateBackoff retry retryDelay
    | none => calculateBackoff retry retryDelay
  | none => calculateBackoff retry retryDelay

/-- Outcome of one logical call through `ApiClient.request`: the waits slept
between consecutive physical attempts, the number of physical attempts made, and
the final result (the response value, or the classified error thrown after the
loop). -/
structure RequestOutcome (α : Type) where
  waits : List Nat
  attempts : Nat
  result : Except RevMaxError α
deriving Repr

/-- Embedding of the retry loop of `ApiClient.request` (src/utils/api.ts lines
180-222). The source iterates `for retry = 0 .. retries` and on a caught error
continues when `retry < retries && isRetryable(error)` after sleeping the
computed wait, otherwise breaks and throws `parseApiError(lastError)`. The
recursion carries `remaining = retries - retry` (so `retry < retries` is
`remaining > 0`) together with the current attempt ordinal `retry`; the
transport is indexed by that ordinal so every physical attempt outcome is
represented. -/
def requestLoopAux (transport : Nat → Except HttpError α) (retryDelay : Nat) :
    Nat → Nat → RequestOutcome α
  | remaining, retry =>
    match transport retry with
    | .ok v => ⟨[], 1, .ok v⟩
    | .error e =>
      match remaining with
      | 0 => ⟨[], 1, .error (parseApiError e)⟩
      | rem + 1 =>
        if isRetryable e then
          let rest := requestLoopAux transport retryDelay rem (retry + 1)
          ⟨retryWait retry retryDelay e :: rest.waits, rest.attempts + 1, rest.result⟩
        else
          ⟨[], 1, .error (parseApiError e)⟩

/-- One logical call of `ApiClient.request` with the configured retry budget and
initial delay, starting at attempt ordinal 0. -/
def request (transport : Nat → Except HttpError α) (retries retryDelay : Nat) :
    RequestOutcome α :=
  requestLoopAux transport retryDelay retries 0

/-- Character class of the regex `[0-9a-f]` under the case-insensitive flag used
by `Telemetry.normalizePath` (src/utils/telemetry.ts line 162). -/
def isHexDigit (c : Char) : Bool :=
  c.isDigit || (('a' ≤ c && c ≤ 'f') || ('A' ≤ c && c ≤ 'F'))

/-- Consume exactly `n` hex characters, returning the remainder: the regex piece
`[0-9a-f]` repeated a fixed number of times. -/
def takeHex : Nat → List Char → Option (List Char)
  | 0, l => some l
  | _ + 1, [] => none
  | n + 1, c :: cs => if isHexDigit c then takeHex n cs else none

/-- Consume one literal dash, returning the remainder. -/
def expectDash : List Char → Option (List Char)
  | '-' :: l => some l
  | _ => none

/-- Match the UUID body `hex8 - hex4 - hex4 - hex4 - hex12` of the first
replacement regex of `Telemetry.normalizePath`, returning the remainder of the
input after the 36 matched characters. -/
def matchUuid (l : List Char) : Option (List Char) :=
  takeHex 8 l >>= expectDash >>= takeHex 4 >>= expectDash >>=
    takeHex 4 >>= expectDash >>= takeHex 4 >>= expectDash >>= takeHex 12

theorem takeHex_length {n : Nat} {l r : List Char} (h : takeHex n l = some r) :
    l.length = r.length + n := by
  induction n generalizing l with
  | zero =>
    simp [takeHex] at h
    simp [h]
  | succ n ih =>
    cases l with
    | nil => simp [takeHex] at h
    | cons c cs =>
      by_cases hc : isHexDigit c
      · simp [takeHex, hc] at h
        have := ih h
        simp [List.length_cons, this]
        omega
      · simp [takeHex, hc] at h

theorem expectDash_length {l r : List Char} (h : expectDash l = some r) :
    l.length = r.length + 1 := by
  match l with
  | [] => simp [expectDash] at h
  | c :: cs =>
    by_cases hc : c = '-'
    · subst hc
      simp [expectDash] at h
      simp [h]
    · rw [show expectDash (c :: cs) = none by
        unfold expectDash
        split
        · rename_i heq
          cases heq
          exact absurd rfl hc
        · rfl] at h
      exact absurd h (by simp)

theorem matchUuid_length {l r : List Char} (h : matchUuid l = some r) :
    l.length = r.length + 36 := by
  unfold matchUuid at h
  simp only [Option.bind_eq_some, bind] at h
  obtain ⟨a8, ⟨a7, ⟨a6, ⟨a5, ⟨a4, ⟨a3, ⟨a2, ⟨a1, h1, h2⟩, h3⟩, h4⟩, h5⟩, h6⟩, h7⟩, h8⟩, h9⟩ := h
  have e1 := takeHex_length h1
  have e2 := expectDash_length h2
  have e3 := takeHex_length h3
  have e4 := expectDash_length h4
  have e5 := takeHex_length h5
  have e6 := expectDash_length h6
  have e7 := takeHex_length h7
  have e8 := expectDash_length h8
  have e9 := takeHex_length h9
  omega

/-- First replacement pass of `Telemetry.normalizePath`: the global
case-insensitive regex replacing every `/` followed by a UUID body with `/:id`.
The scan visits positions left to right; a match consumes the slash and the 36
UUID characters and the scan resumes after the replacement, exactly as a global
`String.replace` does. -/
def replaceUuids : List Char → List Char
  | [] => []
  | c :: rest =>
    if c = '/' then
      match _h : matchUuid rest with
      | some rest2 => '/' :: ':' :: 'i' :: 'd' :: replaceUuids rest2
      | none => '/' :: replaceUuids rest
    else c :: replaceUuids rest
termination_by l => l.length
decreasing_by
  · have := matchUuid_length _h
    simp [List.length_cons]
    omega
  · simp [List.length_cons]
  · simp [List.length_cons]

/-- Second replacement pass of `Telemetry.normalizePath`: the global regex
replacing every `/` followed by one or more digits, when followed by another `/`
or the end of the string (a lookahead, so that boundary is not consumed), with
`/:id`. Backtracking inside the digit run can never satisfy the lookahead, so
the greedy whole-run match is the only candidate. -/
def replaceNumIds : List Char → List Char
  | [] => []
  | c :: rest =>
    if c = '/' ∧ rest.takeWhile Char.isDigit ≠ [] ∧
        ((rest.dropWhile Char.isDigit).head? = some '/' ∨ rest.dropWhile Char.isDigit = []) then
      '/' :: ':' :: 'i' :: 'd' :: replaceNumIds (rest.dropWhile Char.isDigit)
    else c :: replaceNumIds rest
termination_by l => l.length
decreasing_by
  · have : (rest.dropWhile Char.isDigit).length ≤ rest.length :=
      (List.dropWhile_sublist _).length_le
    simp [List.length_cons]
    omega
  · simp [List.length_cons]

/-- Embedding of `Telemetry.normalizePath` (src/utils/telemetry.ts lines
152-166): the empty (falsy) path returns the empty string; otherwise a leading
slash is ensured (`path.startsWith` on the one-character string `/` is, for a
nonempty path, exactly a check on the first character) and the two global
replacements run in order. -/
def normalizePath (path : String) : String :=
  if path = "" then ""
  else
    let chars := path.data
    let normalized := if chars.head? = some '/' then chars else '/' :: chars
    String.mk (replaceNumIds (replaceUuids normalized))

/-- Truthiness of a JavaScript number: zero is falsy. -/
def natTruthy (n : Nat) : Bool := n ≠ 0

/-- Key lookup in an association list modelling a JavaScript `Map`. -/
def lookupKey (m : List (String × α)) (k : String) : Option α :=
  match m with
  | [] => none
  | (k2, v) :: rest => if k = k2 then some v else lookupKey rest k

/-- Key removal, modelling `Map.delete` (keys are unique in a `Map`, so removing
every binding of the key is the same operation). -/
def removeKey (m : List (String × α)) (k : String) : List (String × α) :=
  match m with
  | [] => []
  | (k2, v) :: rest => if k = k2 then removeKey rest k else (k2, v) :: removeKey rest k

/-- Key insertion or replacement, modelling `Map.set`. -/
def setKey (m : List (String × α)) (k : String) (v : α) : List (String × α) :=
  (k, v) :: removeKey m k

/-- The per-request metrics record of src/utils/telemetry.ts (`RequestMetrics`):
the optional fields are `undefined` until the request completes. -/
structure RequestMetrics where
  requestId : String
  method : String
  path : String
  startTime : Nat
  endTime : Option Nat := none
  duration : Option Nat := none
  statusCode : Option Nat := none
  success : Option Bool := none
  errorMessage : Option String := none
  errorType : Option String := none
  retryCount : Option Nat := none
deriving Repr, DecidableEq

/-- The two properties of a JavaScript `Error` object that `Telemetry.endRequest`
reads: `message` and `name` (the error kind string). -/
structure ErrorObj where
  name : String
  message : String
deriving Repr, DecidableEq

/-- The mutable state of a `Telemetry` instance (src/utils/telemetry.ts lines
102-117): the in-flight table and the aggregate counters. The configuration
fields (`enabled`, `sampleRate`, `handler`, `logger`) do not influence any
verified claim beyond the sampling decision, which is passed explicitly to
`startRequest` as the boolean outcome of `shouldCollect`. -/
structure TelemetryState where
  activeRequests : List (String × RequestMetrics)
  requestCount : Nat
  successCount : Nat
  errorCount : Nat
  totalDuration : Nat
  errorTypes : List (String × Nat)
deriving Repr

/-- A freshly constructed recorder: empty in-flight table, zero counters. -/
def Telemetry.init : TelemetryState :=
  ⟨[], 0, 0, 0, 0, []⟩

/-- Embedding of `Telemetry.startRequest` (src/utils/telemetry.ts lines
175-194). `shouldTrack` is the outcome of the random `shouldCollect` draw and
`now` the clock reading; both are inputs of the pure model. Returns the new
state together with the returned identifier and `isTracked` flag. -/
def Telemetry.startRequest (st : TelemetryState) (method path requestId : String)
    (now : Nat) (shouldTrack : Bool) : TelemetryState × String × Bool :=
  if shouldTrack then
    let metrics : RequestMetrics :=
      { requestId := requestId, method := method.toUpper, path := normalizePath path,
        startTime := now }
    ({ st with activeRequests := setKey st.activeRequests requestId metrics },
      requestId, true)
  else
    (st, requestId, false)

/-- Embedding of `Telemetry.endRequest` (src/utils/telemetry.ts lines 203-236).
Returns the new state and the completed metrics record handed to the telemetry
handler (`none` when the identifier was not in the in-flight table and the call
was a no-op). The source reads `statusCode ? statusCode < 400 : true`, so a
literal status 0 falls into the truthy-guard else branch. -/
def Telemetry.endRequest (st : TelemetryState) (requestId : String) (now : Nat)
    (statusCode : Option Nat) (error : Option ErrorObj) (retryCount : Option Nat) :
    TelemetryState × Option RequestMetrics :=
  match lookupKey st.activeRequests requestId with
  | none => (st, none)
  | some metrics =>
    let duration := now - metrics.startTime
    let success := error.isNone && (match statusCode with
      | some s => if natTruthy s then decide (s < 400) else true
      | none => true)
    let errorType := error.map (fun e => if e.name = "" then "UnknownError" else e.name)
    let m2 : RequestMetrics :=
      { metrics with
        endTime := some now, duration := some duration, statusCode := statusCode,
        success := some success, retryCount := some (retryCount.getD 0),
        errorMessage := error.map (fun e => e.message), errorType := errorType }
    let st2 :=
      match errorType with
      | some et =>
        { st with
          errorTypes := setKey st.errorTypes et ((lookupKey st.errorTypes et).getD 0 + 1),
          errorCount := st.errorCount + 1 }
      | none => { st with successCount := st.successCount + 1 }
    ({ st2 with
        requestCount := st2.requestCount + 1,
        totalDuration := st2.totalDuration + duration,
        activeRequests := removeKey st.activeRequests requestId }, some m2)

/-- The snapshot returned by `Telemetry.getStats`; the two rates are real-valued
in the source (JavaScript division), modelled as rationals. -/
structure TelemetryStats where
  requestCount : Nat
  successCount : Nat
  errorCount : Nat
  successRate : Rat
  averageDuration : Rat
  errorBreakdown : List (String × Nat)
deriving Repr, DecidableEq

/-- Embedding of `Telemetry.getStats` (src/utils/telemetry.ts lines 242-267). -/
def Telemetry.getStats (st : TelemetryState) : TelemetryStats :=
  { requestCount := st.requestCount, successCount := st.successCount,
    errorCount := st.errorCount,
    successRate :=
      if 0 < st.requestCount then (st.successCount : Rat) / (st.requestCount : Rat) else 1,
    averageDuration :=
      if 0 < st.requestCount then (st.totalDuration : Rat) / (st.requestCount : Rat) else 0,
    errorBreakdown := st.errorTypes }

/-- Embedding of `Telemetry.resetStats` (src/utils/telemetry.ts lines 272-279):
zero the aggregates and clear the histogram; the in-flight table is untouched. -/
def Telemetry.resetStats (st : TelemetryState) : TelemetryState :=
  { st with
    requestCount := 0
    successCount := 0
    errorCount := 0
    totalDuration := 0
    errorTypes := [] }

/-- The fixed credential start `revx_pk_` (`REVX_API_KEY_PREFIX` of
src/auth/apiKey.ts). -/
def revxApiKeyStart : String := "revx_pk_"

/-- JavaScript `String.startsWith` on the character lists: the argument is a
prefix of the receiver. (The byte-level core implementation is equivalent but
not reducible inside proofs, so the model works on the character lists.) -/
def strStartsWith (s p : String) : Bool :=
  p.data.isPrefixOf s.data

/-- A constructed `ApiKeyAuth` instance: the stored credential (the mutable
`verified` flag is not inspected by any verified claim). -/
structure ApiKeyAuth where
  apiKey : String
deriving Repr, DecidableEq

/-- Embedding of the `ApiKeyAuth` constructor (src/auth/apiKey.ts lines 19-43):
the checks run in source order — empty (falsy) credential, the `typeof` check
(vacuous in this typed model, every value is a string), the fixed start, the
minimum length — each failing with a `RevMaxAuthenticationError`. -/
def ApiKeyAuth.make (apiKey : String) : Except RevMaxError ApiKeyAuth :=
  if apiKey = "" then
    .error (.authenticationError "REVX_API_KEY is required")
  else if ¬ strStartsWith apiKey revxApiKeyStart then
    .error (.authenticationError
      "REVX_API_KEY format not valid: it should start with \"revx_pk_\" followed by a unique identifier")
  else if apiKey.length < revxApiKeyStart.length + 16 then
    .error (.authenticationError "REVX_API_KEY format not valid: key is too short")
  else
    .ok ⟨apiKey⟩

/-- Embedding of `ApiKeyAuth.getHeaders` (src/auth/apiKey.ts lines 49-54): a
single-entry header mapping. -/
def ApiKeyAuth.getHeaders (auth : ApiKeyAuth) : List (String × String) :=
  [("revx-api-key", auth.apiKey)]

/-- Organization object of the `/verify` response body; both fields optional so
that malformed bodies are representable. -/
structure Organization where
  id : Option String
  name : Option String
deriving Repr, DecidableEq

/-- Body of the `/verify` response: the optional `organization` object. -/
structure VerifyBody where
  organization : Option Organization
deriving Repr, DecidableEq

/-- Truthiness of an optional JavaScript string: absent and empty are falsy. -/
def strTruthy : Option String → Bool
  | some s => s ≠ ""
  | none => false

/-- Embedding of `RevMaxClient.connect` (src/client.ts lines 82-128). The `try`
block issues a GET through `ApiClient.request` (which throws the classified
`parseApiError` result), checks `result && result.organization &&
result.organization.id`, and on shape failure throws a
`RevMaxInitializationError` that is caught by the same `catch`. The `catch`
reads `error.statusCode || (error.response && error.response.status)` — on the
already-classified errors only the `statusCode` property can be present — maps
401 to a `RevMaxAuthenticationError` and wraps everything else in a
`RevMaxInitializationError`. The transport returns the optional body
(`response.data`, absent models a falsy `result`). -/
def connect (transport : Nat → Except HttpError (Option VerifyBody))
    (retries retryDelay : Nat) : Except RevMaxError Organization :=
  let tryResult : Except RevMaxError Organization :=
    match (request transport retries retryDelay).result with
    | .error e => .error e
    | .ok result =>
      match result with
      | none => .error (.initializationError "Unexpected response format from API key verification")
      | some body =>
        match body.organization with
        | none => .error (.initializationError "Unexpected response format from API key verification")
        | some org =>
          if strTruthy org.id then .ok org
          else .error (.initializationError "Unexpected response format from API key verification")
  match tryResult with
  | .ok org => .ok org
  | .error e =>
    if e.statusCode = some 401 then
      .error (.authenticationError "Invalid API key. Please check your API key and try again.")
    else
      .error (.initializationError ("Connection failed: " ++ strOr (some e.message) "Unknown error"))

/-- The spec-side success formula of claim C6: success exactly when no error was
passed and the status code is absent or below 400. -/
def specSuccessFlag (statusCode : Option Nat) (error : Option ErrorObj) : Bool :=
  error.isNone && (match statusCode with
    | some s => decide (s < 400)
    | none => true)

/-- The requestCount = successCount + errorCount invariant of claim C10. -/
def statsInvariant (st : TelemetryState) : Prop :=
  st.requestCount = st.successCount + st.errorCount

/-- A transport that fails with HTTP status 500 on every physical attempt
(claim C3 scenario). -/
def fails500 (transport : Nat → Except HttpError α) : Prop :=
  ∀ n, ∃ e r, transport n = .error e ∧ e.response = some r ∧ r.status = 500

theorem lookupKey_setKey (m : List (String × α)) (k : String) (v : α) :
    lookupKey (setKey m k v) k = some v := by
  simp [setKey, lookupKey]

/-- C2: the Executor classifies a failed attempt as retryable exactly when the
response status is 429, is a 5xx (at least 500 and below 600), or no response
was received at all; consequently any other 4xx status is never retryable. -/
theorem c2_retryable_characterization :
    (∀ e : HttpError, isRetryable e = true ↔
      (e.response = none ∨
        ∃ r, e.response = some r ∧ (r.status = 429 ∨ (500 ≤ r.status ∧ r.status < 600)))) ∧
    (∀ (e : HttpError) (r : HttpResponse), e.response = some r →
      400 ≤ r.status → r.status < 500 → r.status ≠ 429 → isRetryable e = false) := by
  constructor
  · intro e
    match e with
    | ⟨msg, none⟩ => simp [isRetryable]
    | ⟨msg, some r⟩ => simp [isRetryable]
  · intro e r he h400 h500 h429
    match e with
    | ⟨msg, resp⟩ =>
      cases he
      simp [isRetryable, h429]
      omega

/-- Closed witness for C2: status 404 is not retried, a network failure is. -/
theorem c2_retryable_characterization_witness :
    isRetryable ⟨"not found", some ⟨404, none, none, false, none⟩⟩ = false ∧
    isRetryable ⟨"socket hang up", none⟩ = true := by
  constructor
  · exact c2_retryable_characterization.2 _ ⟨404, none, none, false, none⟩ rfl
      (by decide) (by decide) (by decide)
  · exact (c2_retryable_characterization.1 _).mpr (Or.inl rfl)

/-- C7: ending a request whose identifier is not in the in-flight table is a
complete no-op — state (counters, histogram and in-flight table) unchanged, no
completed metrics emitted, no error raised. -/
theorem c7_endRequest_unknown_noop (st : TelemetryState) (id : String) (now : Nat)
    (sc : Option Nat) (err : Option ErrorObj) (rc : Option Nat)
    (h : lookupKey st.activeRequests id = none) :
    Telemetry.endRequest st id now sc err rc = (st, none) := by
  unfold Telemetry.endRequest
  rw [h]

/-- Closed witness for C7: ending an untracked identifier on a fresh recorder. -/
theorem c7_endRequest_unknown_noop_witness :
    Telemetry.endRequest Telemetry.init "req-1" 5 (some 200) none none =
      (Telemetry.init, none) :=
  c7_endRequest_unknown_noop Telemetry.init "req-1" 5 (some 200) none none rfl

/-- C8: for every recorder state, resetStats followed by getStats yields the
fresh-recorder snapshot (zero counts, successRate 1, averageDuration 0, empty
breakdown), and resetStats leaves the in-flight table unchanged. -/
theorem c8_reset_then_getStats (st : TelemetryState) :
    Telemetry.getStats (Telemetry.resetStats st) =
      { requestCount := 0, successCount := 0, errorCount := 0, successRate := 1,
        averageDuration := 0, errorBreakdown := [] } ∧
    (Telemetry.resetStats st).activeRequests = st.activeRequests ∧
    Telemetry.getStats (Telemetry.resetStats st) = Telemetry.getStats Telemetry.init :=
  ⟨rfl, rfl, rfl⟩

/-- C10: the invariant requestCount = successCount + errorCount holds on a fresh
recorder, after any resetStats, and is preserved by every endRequest call
(no-op or completion), since a completion increments requestCount and exactly
one of successCount or errorCount. -/
theorem c10_stats_invariant :
    statsInvariant Telemetry.init ∧
    (∀ st, statsInvariant (Telemetry.resetStats st)) ∧
    (∀ (st : TelemetryState) (id : String) (now : Nat) (sc : Option Nat)
      (err : Option ErrorObj) (rc : Option Nat), statsInvariant st →
      statsInvariant (Telemetry.endRequest st id now sc err rc).1) := by
  refine ⟨rfl, fun st => rfl, ?_⟩
  intro st id now sc err rc hinv
  unfold Telemetry.endRequest
  cases hlk : lookupKey st.activeRequests id with
  | none => exact hinv
  | some m =>
    cases err with
    | none =>
      simp only [statsInvariant] at hinv ⊢
      simp [hinv, Option.map]
      omega
    | some e =>
      simp only [statsInvariant] at hinv ⊢
      simp [hinv, Option.map]
      omega

/-- Closed witness for C10: invariant preservation on a concrete tracked
completion. -/
theorem c10_stats_invariant_witness :
    statsInvariant ((Telemetry.startRequest Telemetry.init "get" "/x" "r1" 0 true).1) →
    statsInvariant
      ((Telemetry.endRequest (Telemetry.startRequest Telemetry.init "get" "/x" "r1" 0 true).1
        "r1" 7 (some 200) none none).1) :=
  fun h => c10_stats_invariant.2.2 _ "r1" 7 (some 200) none none h

/-- C5: ApiKeyAuth construction fails with an Authentication error exactly when
the credential is empty, does not start with `revx_pk_`, or is shorter than the
start's length plus 16; and for every accepted credential, getHeaders is the
single-entry mapping of `revx-api-key` to the credential. -/
theorem c5_apiKeyAuth (k : String) :
    ((∃ m, ApiKeyAuth.make k = .error (.authenticationError m)) ↔
      (k = "" ∨ ¬ strStartsWith k revxApiKeyStart ∨
        k.length < revxApiKeyStart.length + 16)) ∧
    (∀ a, ApiKeyAuth.make k = .ok a →
      a.getHeaders = [("revx-api-key", k)]) := by
  by_cases h1 : k = ""
  · refine ⟨⟨fun _ => Or.inl h1, fun _ => ⟨"REVX_API_KEY is required", ?_⟩⟩, fun a ha => ?_⟩
    · unfold ApiKeyAuth.make
      rw [if_pos h1]
    · unfold ApiKeyAuth.make at ha
      rw [if_pos h1] at ha
      cases ha
  · by_cases h2 : strStartsWith k revxApiKeyStart = true
    · by_cases h3 : k.length < revxApiKeyStart.length + 16
      · have hmk : ApiKeyAuth.make k =
            .error (.authenticationError "REVX_API_KEY format not valid: key is too short") := by
          unfold ApiKeyAuth.make
          rw [if_neg h1, if_neg (not_not_intro h2), if_pos h3]
        refine ⟨⟨fun _ => Or.inr (Or.inr h3), fun _ => ⟨_, hmk⟩⟩, fun a ha => ?_⟩
        rw [hmk] at ha
        cases ha
      · have hmk : ApiKeyAuth.make k = .ok ⟨k⟩ := by
          unfold ApiKeyAuth.make
          rw [if_neg h1, if_neg (not_not_intro h2), if_neg h3]
        refine ⟨⟨fun h => ?_, fun h => ?_⟩, fun a ha => ?_⟩
        · obtain ⟨m, hm⟩ := h
          rw [hmk] at hm
          cases hm
        · rcases h with h | h | h
          · exact absurd h h1
          · exact absurd h2 h
          · exact absurd h h3
        · rw [hmk] at ha
          cases ha
          rfl
    · have hmk : ApiKeyAuth.make k =
          .error (.authenticationError
            "REVX_API_KEY format not valid: it should start with \"revx_pk_\" followed by a unique identifier") := by
        unfold ApiKeyAuth.make
        rw [if_neg h1, if_pos h2]
      refine ⟨⟨fun _ => Or.inr (Or.inl h2), fun _ => ⟨_, hmk⟩⟩, fun a ha => ?_⟩
      rw [hmk] at ha
      cases ha

/-- Closed witness for C5: a short credential is rejected, a well-formed one is
accepted with the single auth header. -/
theorem c5_apiKeyAuth_witness :
    (∃ m, ApiKeyAuth.make "revx_pk_short" = .error (.authenticationError m)) ∧
    ApiKeyAuth.getHeaders ⟨"revx_pk_0123456789abcdef"⟩ =
      [("revx-api-key", "revx_pk_0123456789abcdef")] := by
  constructor
  · exact (c5_apiKeyAuth "revx_pk_short").1.mpr (Or.inr (Or.inr (by decide)))
  · exact (c5_apiKeyAuth "revx_pk_0123456789abcdef").2 ⟨"revx_pk_0123456789abcdef"⟩ rfl

/-- C6: completing a tracked request emits a metrics record whose success flag is
(no error passed) AND (no status code passed OR status code below 400),
increments requestCount by one, increments exactly one of successCount or
errorCount according to that outcome, and on an error bumps the error-kind
histogram under the error's kind string (its `name`, with the source's
`UnknownError` fallback for an empty name). -/
theorem c6_endRequest_completion (st : TelemetryState) (id : String) (now : Nat)
    (sc : Option Nat) (err : Option ErrorObj) (rc : Option Nat) (m : RequestMetrics)
    (h : lookupKey st.activeRequests id = some m) :
    (∃ m2, (Telemetry.endRequest st id now sc err rc).2 = some m2 ∧
      m2.success = some (specSuccessFlag sc err)) ∧
    (Telemetry.endRequest st id now sc err rc).1.requestCount = st.requestCount + 1 ∧
    (match err with
     | some e =>
       (Telemetry.endRequest st id now sc err rc).1.errorCount = st.errorCount + 1 ∧
       (Telemetry.endRequest st id now sc err rc).1.successCount = st.successCount ∧
       lookupKey (Telemetry.endRequest st id now sc err rc).1.errorTypes
           (if e.name = "" then "UnknownError" else e.name) =
         some ((lookupKey st.errorTypes
           (if e.name = "" then "UnknownError" else e.name)).getD 0 + 1)
     | none =>
       (Telemetry.endRequest st id now sc err rc).1.successCount = st.successCount + 1 ∧
       (Telemetry.endRequest st id now sc err rc).1.errorCount = st.errorCount) := by
  unfold Telemetry.endRequest
  rw [h]
  cases err with
  | none =>
    refine ⟨⟨_, rfl, ?_⟩, rfl, rfl, rfl⟩
    simp only [specSuccessFlag, Option.isNone_none, Bool.true_and]
    cases sc with
    | none => rfl
    | some s =>
      by_cases hs : s = 0
      · subst hs
        simp [natTruthy]
      · simp [natTruthy, hs]
  | some e =>
    refine ⟨⟨_, rfl, ?_⟩, rfl, rfl, rfl, ?_⟩
    · simp [specSuccessFlag]
    · simp only [Option.map_some]
      exact lookupKey_setKey st.errorTypes _ _

/-- Closed witness for C6: a tracked completion with an error increments
requestCount, errorCount and the histogram entry for the error kind. -/
theorem c6_endRequest_completion_witness :
    (Telemetry.endRequest
      ⟨[("r1", ⟨"r1", "GET", "/x", 2, none, none, none, none, none, none, none⟩)],
        3, 2, 1, 50, []⟩
      "r1" 9 (some 500) (some ⟨"Error", "boom"⟩) (some 1)).1.requestCount = 3 + 1 :=
  (c6_endRequest_completion
    ⟨[("r1", ⟨"r1", "GET", "/x", 2, none, none, none, none, none, none, none⟩)],
      3, 2, 1, 50, []⟩
    "r1" 9 (some 500) (some ⟨"Error", "boom"⟩) (some 1)
    ⟨"r1", "GET", "/x", 2, none, none, none, none, none, none, none⟩ rfl).2.1

theorem requestLoopAux_waits_at {α : Type} (transport : Nat → Except HttpError α)
    (d : Nat) :
    ∀ (rem retry n : Nat), n < rem →
      (∀ k, k ≤ n → ∃ e, transport (retry + k) = .error e ∧ isRetryable e = true) →
      ∀ e, transport (retry + n) = .error e →
      (requestLoopAux transport d rem retry).waits[n]? =
        some (retryWait (retry + n) d e) := by
  intro rem
  induction rem with
  | zero => intro retry n hn; omega
  | succ rem ih =>
    intro retry n hn hall e he
    obtain ⟨e0, he0, hr0⟩ := hall 0 (Nat.zero_le n)
    rw [Nat.add_zero] at he0
    rw [requestLoopAux, he0]
    simp only [hr0, if_true]
    cases n with
    | zero =>
      rw [Nat.add_zero] at he
      rw [he0] at he
      injection he with he
      subst he
      simp
    | succ n =>
      simp only [List.getElem?_cons_succ]
      have hall2 : ∀ k, k ≤ n → ∃ e2, transport (retry + 1 + k) = .error e2 ∧
          isRetryable e2 = true := by
        intro k hk
        have hidx : retry + 1 + k = retry + (k + 1) := by omega
        rw [hidx]
        exact hall (k + 1) (by omega)
      have he2 : transport (retry + 1 + n) = .error e := by
        have hidx : retry + 1 + n = retry + (n + 1) := by omega
        rw [hidx]
        exact he
      have hrec := ih (retry + 1) n (by omega) hall2 e he2
      rw [hrec]
      have hidx : retry + 1 + n = retry + (n + 1) := by omega
      rw [hidx]

/-- C1 counterexample: with retries remaining, a retryable 503 response carrying
a retry-after header of 7 seconds makes the loop wait 7000 ms, while the formula
claimed (header honored only when the status was 429) prescribes the 300 ms
exponential backoff for this input. -/
theorem c1_counterexample :
    (request (α := Unit)
      (fun _ => .error ⟨"Request failed with status code 503",
        some ⟨503, some 7, none, false, none⟩⟩) 1 300).waits = [7000] ∧
    specClaimedWait 0 300 ⟨"Request failed with status code 503",
      some ⟨503, some 7, none, false, none⟩⟩ = 300 ∧
    (7000 : Nat) ≠ 300 :=
  ⟨rfl, rfl, by decide⟩

/-- C1 amended: for every retryable failed attempt with retries remaining — at
any retry ordinal n, reached because physical attempts 0 through n all failed
retryably and n is below the retry budget — the wait before the next attempt
equals the server-provided retry-after value (seconds, converted to ms)
whenever that header is present on that attempt's failed response, regardless
of its status code, and equals the exponential backoff retryDelay * 2 ^ n when
no header is present; in particular a 429 response with retry-after 5 yields a
5000 ms wait. -/
theorem c1_amended_wait_rule :
    (∀ (transport : Nat → Except HttpError Unit) (retries retryDelay n : Nat),
      (∀ k, k ≤ n → ∃ e, transport k = .error e ∧ isRetryable e = true) →
      n < retries →
      ∀ e, transport n = .error e →
      (request transport retries retryDelay).waits[n]? = some
        (match e.response with
         | some r =>
           match r.retryAfter with
           | some secs => secs * 1000
           | none => retryDelay * 2 ^ n
         | none => retryDelay * 2 ^ n)) ∧
    (request (α := Unit)
      (fun _ => .error ⟨"Too many requests", some ⟨429, some 5, none, false, none⟩⟩)
      1 300).waits = [5000] := by
  refine ⟨?_, rfl⟩
  intro transport retries retryDelay n hall hn e he
  have h := requestLoopAux_waits_at transport retryDelay retries 0 n hn
    (fun k hk => by simpa using hall k hk) e (by simpa using he)
  rw [Nat.zero_add] at h
  unfold request
  rw [h]
  cases her : e.response with
  | none => simp [retryWait, calculateBackoff, her]
  | some r =>
    cases hra : r.retryAfter with
    | none => simp [retryWait, calculateBackoff, her, hra]
    | some secs => simp [retryWait, her, hra]

/-- Closed witness for the amended C1: a transport whose first failure is a bare
500 and whose second failure is a 429 carrying retry-after 5 gets its second
wait — at retry ordinal 1 — from the header: 5000 ms, not the 600 ms backoff. -/
theorem c1_amended_wait_rule_witness :
    (request (α := Unit)
      (fun k => if k = 0 then .error ⟨"Request failed with status code 500",
          some ⟨500, none, none, false, none⟩⟩
        else .error ⟨"Too many requests", some ⟨429, some 5, none, false, none⟩⟩)
      2 300).waits[1]? = some 5000 := by
  have h := c1_amended_wait_rule.1
    (fun k => if k = 0 then .error ⟨"Request failed with status code 500",
        some ⟨500, none, none, false, none⟩⟩
      else .error ⟨"Too many requests", some ⟨429, some 5, none, false, none⟩⟩)
    2 300 1
    (fun k hk => by
      match k, hk with
      | 0, _ => exact ⟨_, rfl, by decide⟩
      | 1, _ => exact ⟨_, rfl, by decide⟩)
    (by decide)
    ⟨"Too many requests", some ⟨429, some 5, none, false, none⟩⟩ rfl
  simpa using h

/-- C3: with retries = 2 and retryDelay = 300 against a transport failing with
status 500 on every attempt, the Executor makes exactly 3 physical attempts and
the logical call fails with a generic RevMaxApiError carrying status code 500. -/
theorem c3_three_attempts_500 (transport : Nat → Except HttpError Unit)
    (h : fails500 transport) :
    (request transport 2 300).attempts = 3 ∧
    ∃ msg code, (request transport 2 300).result = .error (.apiError msg 500 code) := by
  obtain ⟨e0, r0, he0, hr0, hs0⟩ := h 0
  obtain ⟨e1, r1, he1, hr1, hs1⟩ := h 1
  obtain ⟨e2, r2, he2, hr2, hs2⟩ := h 2
  have hret : ∀ (e : HttpError) (r : HttpResponse), e.response = some r → r.status = 500 →
      isRetryable e = true := by
    intro e r hre hs
    simp [isRetryable, hre, hs]
  have key : (request transport 2 300).attempts = 3 ∧
      (request transport 2 300).result = .error (parseApiError e2) := by
    unfold request
    rw [requestLoopAux, he0]
    simp only [hret e0 r0 hr0 hs0, if_true]
    rw [requestLoopAux, he1]
    simp only [hret e1 r1 hr1 hs1, if_true]
    rw [requestLoopAux, he2]
    simp
  refine ⟨key.1, strOr r2.dataMessage (strOr (some e2.message) "Unknown error"),
    r2.dataCode, ?_⟩
  rw [key.2]
  simp [parseApiError, hr2, hs2]

/-- Closed witness for C3: the concrete always-500 transport makes exactly three
attempts. -/
theorem c3_three_attempts_500_witness :
    (request (α := Unit) (fun _ => .error ⟨"Request failed with status code 500",
      some ⟨500, none, some "Internal server error", false, none⟩⟩) 2 300).attempts = 3 :=
  (c3_three_attempts_500 _ (fun _ => ⟨_, _, rfl, rfl, rfl⟩)).1

/-- C4 (code-bug demonstration): against a transport answering 401, connect
throws a RevMaxInitializationError, not the RevMaxAuthenticationError that the
claim — and the JSDoc of connect and the repository's own tests — prescribe:
parseApiError wraps the 401 into a RevMaxAuthenticationError, which carries no
statusCode property, so the 401 remap inside the catch of connect can never
fire. Moreover a verification body whose organization carries an id but no name
is accepted, where the claim prescribes an Initialization error. -/
theorem c4_connect_divergence :
    connect (fun _ => .error ⟨"Request failed with status code 401",
        some ⟨401, none, some "Invalid API key", false, none⟩⟩) 0 300 =
      .error (.initializationError "Connection failed: Invalid API key") ∧
    (∀ m, connect (fun _ => .error ⟨"Request failed with status code 401",
        some ⟨401, none, some "Invalid API key", false, none⟩⟩) 0 300 ≠
      .error (.authenticationError m)) ∧
    connect (fun _ => .ok (some ⟨some ⟨some "org_123", none⟩⟩)) 0 300 =
      .ok ⟨some "org_123", none⟩ := by
  refine ⟨rfl, ?_, rfl⟩
  intro m h
  rw [show connect (fun _ => .error ⟨"Request failed with status code 401",
      some ⟨401, none, some "Invalid API key", false, none⟩⟩) 0 300 =
    .error (.initializationError "Connection failed: Invalid API key") from rfl] at h
  simp at h

theorem takeHex_append_exact {a r : List Char} {n : Nat} (hlen : a.length = n)
    (hhex : ∀ x ∈ a, isHexDigit x = true) :
    takeHex n (a ++ r) = some r := by
  subst hlen
  induction a with
  | nil => rfl
  | cons c cs ih =>
    simp only [List.length_cons, List.cons_append, takeHex]
    rw [hhex c (by simp)]
    simp only [if_true]
    exact ih (fun x hx => hhex x (by simp [hx]))

theorem matchUuid_structured (a b c d e s : List Char)
    (ha : a.length = 8) (hb : b.length = 4) (hc : c.length = 4) (hd : d.length = 4)
    (he : e.length = 12)
    (hhex : ∀ x ∈ a ++ b ++ c ++ d ++ e, isHexDigit x = true) :
    matchUuid (a ++ '-' :: (b ++ '-' :: (c ++ '-' :: (d ++ '-' :: (e ++ s))))) = some s := by
  have hA : ∀ x ∈ a, isHexDigit x = true := fun x hx => hhex x (by simp [hx])
  have hB : ∀ x ∈ b, isHexDigit x = true := fun x hx => hhex x (by simp [hx])
  have hC : ∀ x ∈ c, isHexDigit x = true := fun x hx => hhex x (by simp [hx])
  have hD : ∀ x ∈ d, isHexDigit x = true := fun x hx => hhex x (by simp [hx])
  have hE : ∀ x ∈ e, isHexDigit x = true := fun x hx => hhex x (by simp [hx])
  simp only [matchUuid, bind, takeHex_append_exact ha hA, takeHex_append_exact hb hB,
    takeHex_append_exact hc hC, takeHex_append_exact hd hD, takeHex_append_exact he hE,
    Option.some_bind, expectDash]

theorem replaceUuids_cons_uuid (a b c d e s : List Char)
    (ha : a.length = 8) (hb : b.length = 4) (hc : c.length = 4) (hd : d.length = 4)
    (he : e.length = 12)
    (hhex : ∀ x ∈ a ++ b ++ c ++ d ++ e, isHexDigit x = true) :
    replaceUuids ('/' :: (a ++ '-' :: (b ++ '-' :: (c ++ '-' :: (d ++ '-' :: (e ++ s)))))) =
      '/' :: ':' :: 'i' :: 'd' :: replaceUuids s := by
  simp only [replaceUuids, if_true]
  split
  · rename_i rest2 heq
    rw [matchUuid_structured a b c d e s ha hb hc hd he hhex] at heq
    cases heq
    rfl
  · rename_i heq
    rw [matchUuid_structured a b c d e s ha hb hc hd he hhex] at heq
    cases heq

theorem takeWhile_digits_append {ds s : List Char}
    (hds : ∀ x ∈ ds, x.isDigit = true)
    (hs : s.head? = some '/' ∨ s = []) :
    (ds ++ s).takeWhile Char.isDigit = ds ∧ (ds ++ s).dropWhile Char.isDigit = s := by
  induction ds with
  | nil =>
    simp only [List.nil_append]
    rcases hs with hs | hs
    · cases s with
      | nil => simp at hs
      | cons c cs =>
        simp only [List.head?_cons, Option.some.injEq] at hs
        subst hs
        constructor
        · rw [List.takeWhile_cons]
          simp [show ('/' : Char).isDigit = false from rfl]
        · rw [List.dropWhile_cons]
          simp [show ('/' : Char).isDigit = false from rfl]
    · subst hs
      simp
  | cons c cs ih =>
    have hc : c.isDigit = true := hds c (by simp)
    obtain ⟨h1, h2⟩ := ih (fun x hx => hds x (by simp [hx]))
    constructor
    · simp [List.takeWhile_cons, hc, h1]
    · simp [List.dropWhile_cons, hc, h2]

theorem replaceNumIds_cons_num (ds s : List Char) (hne : ds ≠ [])
    (hds : ∀ x ∈ ds, x.isDigit = true)
    (hs : s.head? = some '/' ∨ s = []) :
    replaceNumIds ('/' :: (ds ++ s)) = '/' :: ':' :: 'i' :: 'd' :: replaceNumIds s := by
  obtain ⟨h1, h2⟩ := takeWhile_digits_append hds hs
  simp only [replaceNumIds, h1, h2]
  rw [if_pos ⟨trivial, hne, hs⟩]

/-- C9: path normalization replaces UUID-shaped and bare numeric path segments
with the `:id` placeholder. The two concrete conjuncts are the claim's examples
through `normalizePath`; the two general conjuncts state that whenever the
first-pass scan reaches a slash followed by a UUID-shaped segment
(8-4-4-4-12 hex characters) it emits `/:id` and resumes after it, and whenever
the second-pass scan reaches a slash followed by one or more digits whose run
ends at another slash or at the end of the path it emits `/:id` and resumes at
that boundary. -/
theorem c9_normalizePath_replaces_ids :
    normalizePath "/customers/123e4567-e89b-12d3-a456-426614174000" = "/customers/:id" ∧
    normalizePath "/customers/4821" = "/customers/:id" ∧
    (∀ a b c d e s : List Char, a.length = 8 → b.length = 4 → c.length = 4 →
      d.length = 4 → e.length = 12 →
      (∀ x ∈ a ++ b ++ c ++ d ++ e, isHexDigit x = true) →
      replaceUuids ('/' :: (a ++ '-' :: (b ++ '-' :: (c ++ '-' :: (d ++ '-' :: (e ++ s)))))) =
        '/' :: ':' :: 'i' :: 'd' :: replaceUuids s) ∧
    (∀ ds s : List Char, ds ≠ [] → (∀ x ∈ ds, x.isDigit = true) →
      (s.head? = some '/' ∨ s = []) →
      replaceNumIds ('/' :: (ds ++ s)) = '/' :: ':' :: 'i' :: 'd' :: replaceNumIds s) := by
  refine ⟨?_, ?_, replaceUuids_cons_uuid, replaceNumIds_cons_num⟩
  · show String.mk (replaceNumIds (replaceUuids
      "/customers/123e4567-e89b-12d3-a456-426614174000".data)) = "/customers/:id"
    have hu : replaceUuids "/customers/123e4567-e89b-12d3-a456-426614174000".data =
        "/customers/:id".data := by
      simp [replaceUuids, matchUuid, takeHex, expectDash, isHexDigit, Char.isDigit]
    rw [hu]
    have hn : replaceNumIds "/customers/:id".data = "/customers/:id".data := by
      simp [replaceNumIds, List.takeWhile, List.dropWhile, Char.isDigit]
    rw [hn]
  · show String.mk (replaceNumIds (replaceUuids "/customers/4821".data)) = "/customers/:id"
    have hu : replaceUuids "/customers/4821".data = "/customers/4821".data := by
      simp [replaceUuids, matchUuid, takeHex, expectDash, isHexDigit, Char.isDigit]
    rw [hu]
    have hn : replaceNumIds "/customers/4821".data = "/customers/:id".data := by
      simp [replaceNumIds, List.takeWhile, List.dropWhile, Char.isDigit]
    rw [hn]

/-- Closed witness for C9: the general numeric rule applied to the segment 4821
at the end of a path. -/
theorem c9_normalizePath_replaces_ids_witness :
    replaceNumIds ('/' :: ("4821".data ++ [])) = '/' :: ':' :: 'i' :: 'd' :: replaceNumIds [] :=
  c9_normalizePath_replaces_ids.2.2.2 "4821".data [] (by decide) (by decide) (Or.inr rfl)
